import Mathlib

/-!
Shallow embedding of the MAE-3403-HW-6 network-solver core.

Conventions used throughout this development:
* Python floats are modelled as real numbers (`ℝ`).
* A Python function that can raise an exception (`IndexError`, `AttributeError`,
  `TypeError`) is modelled with an `Option` result; `none` means the call does
  not return normally.  A Python function that *returns* `None` on a plain
  fall-through return path is likewise modelled by `none`; the doc comment of
  each definition states which reading applies.
* Python object mutation is modelled by explicit state passing: a method that
  mutates `self` returns the updated value alongside its result.
* `scipy.optimize.fsolve` and `random.normalvariate` are external collaborators;
  they are modelled as the fields of an explicit environment `Env` that is
  threaded through the friction-factor code that calls them.
-/

namespace HW6

/-- Python's `name[::-1]` string reversal. -/
def pyReverse (s : String) : String := String.mk s.data.reverse

/-- The `List.isPrefixOf` at every suffix: Boolean substring test on char lists. -/
def pyContainsAux (needle : List Char) : List Char → Bool
  | [] => needle.isEmpty
  | c :: cs => needle.isPrefixOf (c :: cs) || pyContainsAux needle cs

/-- Python's `needle in hay` substring containment test. -/
def pyContains (needle hay : String) : Bool := pyContainsAux needle.data hay.data

/-- The `Resistor` from `Problem 1.py` / `Problem_1_Test_2.py`: name (two-letter node
pair), resistance, and the mutable scratch field `Current`. -/
structure Resistor where
  Name : String
  Resistance : ℝ
  Current : ℝ
  deriving Inhabited

/-- The `Resistor.DeltaV`: `self.Current * self.Resistance`. -/
def Resistor.DeltaV (r : Resistor) : ℝ := r.Current * r.Resistance

/-- The `VoltageSource` from `Problem 1.py` / `Problem_1_Test_2.py`. -/
structure VoltageSource where
  Name : String
  Voltage : ℝ
  deriving Inhabited

/-- The `Loop` of the resistor network: an ordered list of node names. -/
structure RLoop where
  Nodes : List String
  deriving Inhabited

/-- The `ResistorNetwork` aggregate: lists of resistors, sources and loops. -/
structure ResistorNetwork where
  Resistors : List Resistor
  VSources : List VoltageSource
  Loops : List RLoop
  deriving Inhabited

/-- The `ResistorNetwork.GetResistorByName` (`Problem 1.py` lines 210–218, identical
in `Problem_1_Test_2.py`): linear scan returning the first resistor whose
`Name` equals `name`; on a miss the Python loop falls through and the method
returns `None`, modelled here by `none`. -/
def GetResistorByName (rs : List Resistor) (name : String) : Option Resistor :=
  rs.find? (fun r => r.Name == name)

/-- The `ResistorNetwork.GetElementDeltaV` (`Problem 1.py` lines 173–188, identical
in `Problem_1_Test_2.py`): scan the resistors first, matching `name` forward or
reversed and returning `-DeltaV()`; then scan the voltage sources, matching
forward or reversed and returning `+Voltage` in both cases; fall through to a
`None` return (`none`) when nothing matches. -/
def GetElementDeltaV (net : ResistorNetwork) (name : String) : Option ℝ :=
  match net.Resistors.find? (fun r => name == r.Name || pyReverse name == r.Name) with
  | some r => some (-r.DeltaV)
  | none =>
    match net.VSources.find? (fun v => name == v.Name || pyReverse name == v.Name) with
    | some v => some v.Voltage
    | none => none

/-- The Python statement `self.GetResistorByName(name).Current = c`: mutate the
first resistor named `name`; when the lookup returns `None`, the attribute
assignment raises `AttributeError`, modelled by `none`. -/
def setResistorCurrent (rs : List Resistor) (name : String) (c : ℝ) :
    Option (List Resistor) :=
  match rs with
  | [] => none
  | r :: rest =>
    if r.Name == name then some ({ r with Current := c } :: rest)
    else (setResistorCurrent rest name c).map (r :: ·)

/-- The two-letter segment names visited by `GetLoopVoltageDrops` for one loop:
`Nodes[n] + Nodes[n+1]`, wrapping to `Nodes[0] + Nodes[last]` at the end. -/
def loopSegmentNames (nodes : List String) : List String :=
  (List.range nodes.length).map (fun n =>
    if n == nodes.length - 1 then nodes.headD "" ++ nodes.getD n ""
    else nodes.getD n "" ++ nodes.getD (n + 1) "")

/-- The per-loop accumulation `loopDeltaV += self.GetElementDeltaV(name)` of
`GetLoopVoltageDrops`; adding the `None` from a failed lookup raises
`TypeError`, modelled by `none`. -/
def loopDeltaV (net : ResistorNetwork) (L : RLoop) : Option ℝ :=
  (loopSegmentNames L.Nodes).foldl
    (fun acc nm => do
      let a ← acc
      let v ← GetElementDeltaV net nm
      pure (a + v))
    (some 0)

/-- The `for L in self.Loops` accumulation of `GetLoopVoltageDrops`: append
one signed loop sum per loop, propagating a crash. -/
def loopDropsAux (net : ResistorNetwork) : List RLoop → Option (List ℝ)
  | [] => some []
  | L :: Ls => do
    let v ← loopDeltaV net L
    let rest ← loopDropsAux net Ls
    pure (v :: rest)

/-- The `ResistorNetwork.GetLoopVoltageDrops` (`Problem 1.py` lines 190–208,
identical in `Problem_1_Test_2.py`): one signed voltage sum per loop. -/
def GetLoopVoltageDrops (net : ResistorNetwork) : Option (List ℝ) :=
  loopDropsAux net net.Loops

/-- The `ResistorNetwork2.GetKirchoffVals` from `Problem 2.py` (lines 32–54).
Assigns `i[0]` to resistors `ad` and `bc`, `i[4]` to `parallel_resistor`,
`i[1]` to `ce`; computes the node-c balance `i[0]+i[1]-i[2]` and the loop
voltage drops (both discarded), then returns `np.zeros_like(i)`.  `none`
models an `IndexError` (short `i`) or `AttributeError` (failed lookup) or a
`TypeError` inside `GetLoopVoltageDrops`. -/
def GetKirchoffVals_P2 (net : ResistorNetwork) (i : List ℝ) :
    Option (ResistorNetwork × List ℝ) := do
  let i0 ← i.get? 0
  let rs1 ← setResistorCurrent net.Resistors "ad" i0
  let rs2 ← setResistorCurrent rs1 "bc" i0
  let i4 ← i.get? 4
  let rs3 ← setResistorCurrent rs2 "parallel_resistor" i4
  let i1 ← i.get? 1
  let rs4 ← setResistorCurrent rs3 "ce" i1
  let i2 ← i.get? 2
  let net' : ResistorNetwork := { net with Resistors := rs4 }
  let nodeC := i0 + i1 - i2
  let KVL ← GetLoopVoltageDrops net'
  let _ := KVL ++ [nodeC]
  some (net', List.replicate i.length 0)

/-- The `ResistorNetwork.GetKirchoffVals` from `Problem_1_Test_2.py` (lines
147–169).  Same shape as the `Problem 2.py` override but assigns `i[2]` to
resistor `cd` instead of `i[4]` to `parallel_resistor`; also returns
`np.zeros_like(i)`. -/
def GetKirchoffVals_T2 (net : ResistorNetwork) (i : List ℝ) :
    Option (ResistorNetwork × List ℝ) := do
  let i0 ← i.get? 0
  let rs1 ← setResistorCurrent net.Resistors "ad" i0
  let rs2 ← setResistorCurrent rs1 "bc" i0
  let i2 ← i.get? 2
  let rs3 ← setResistorCurrent rs2 "cd" i2
  let i1 ← i.get? 1
  let rs4 ← setResistorCurrent rs3 "ce" i1
  let net' : ResistorNetwork := { net with Resistors := rs4 }
  let nodeC := i0 + i1 - i2
  let KVL ← GetLoopVoltageDrops net'
  let _ := KVL ++ [nodeC]
  some (net', List.replicate i.length 0)

/-- The `ResistorNetwork2.GetKirchoffVals` from `HW6_1_2_OOP.py` (lines 32–68).
Its base class lives in `HW6_1_OOP.py`, which is not among the source files;
the inherited lookups are modelled from the spec (§4.1, §4.3) and are
identical to the copies in `Problem 1.py` / `Problem_1_Test_2.py`.  Assigns
`i[0]`,`i[0]`,`i[2]`,`i[1]`,`i[3]` to `ad`,`bc`,`cd`,`ce`,`df`; builds
`KVL = GetLoopVoltageDrops() ++ [node-c balance]`, then copies `KVL` into
`np.zeros(len(KVL)+1)`, returning a vector one longer than `KVL`. -/
def GetKirchoffVals_12 (net : ResistorNetwork) (i : List ℝ) :
    Option (ResistorNetwork × List ℝ) := do
  let i0 ← i.get? 0
  let rs1 ← setResistorCurrent net.Resistors "ad" i0
  let rs2 ← setResistorCurrent rs1 "bc" i0
  let i2 ← i.get? 2
  let rs3 ← setResistorCurrent rs2 "cd" i2
  let i1 ← i.get? 1
  let rs4 ← setResistorCurrent rs3 "ce" i1
  let i3 ← i.get? 3
  let rs5 ← setResistorCurrent rs4 "df" i3
  let net' : ResistorNetwork := { net with Resistors := rs5 }
  let nodeC := i0 + i1 - i2 - i3
  let drops ← GetLoopVoltageDrops net'
  let KVL := drops ++ [nodeC]
  some (net', KVL ++ [0])

/-! ### Network-definition file parsing (`Problem 1.py` lines 20–118)

Numeric fields (`float(...)`) are kept as raw stripped text: a numeric field
that does not parse is a separate `ParseFailure` mode, orthogonal to the
line-indexing behaviour the parsing claims are about. -/

/-- Python `s.lower()` (ASCII): lowercase every character. -/
def pyLower (s : String) : String := String.mk (s.data.map Char.toLower)

/-- Python `s.strip()`: drop leading and trailing whitespace. -/
def pyStrip (s : String) : String :=
  String.mk (((s.data.dropWhile Char.isWhitespace).reverse.dropWhile
    Char.isWhitespace).reverse)

/-- Python `s.replace(" ", "")`: remove every space character. -/
def pyRemoveSpaces (s : String) : String :=
  String.mk (s.data.filter (fun c => c ≠ ' '))

/-- Split a character list at every occurrence of `sep`, keeping empties. -/
def pySplitCharAux (sep : Char) : List Char → List Char → List String
  | [], acc => [String.mk acc.reverse]
  | c :: cs, acc =>
    if c == sep then String.mk acc.reverse :: pySplitCharAux sep cs []
    else pySplitCharAux sep cs (c :: acc)

/-- Python `s.split(sep)` for a one-character separator. -/
def pySplit (sep : Char) (s : String) : List String :=
  pySplitCharAux sep s.data []

/-- Python `txt.split('=')[1]`: `none` models the `IndexError` raised when the
line has no `=`. -/
def pyEqField (txt : String) : Option String := (pySplit '=' txt).get? 1

/-- Parse-level resistor record; `ResistanceTxt` holds the raw text handed to
Python's `float`. -/
structure ResistorP where
  Name : String := "ab"
  ResistanceTxt : String := ""
  deriving Inhabited

/-- Parse-level voltage-source record (`VS.Name`, `VS.Voltage`, `VS.Type`). -/
structure VSourceP where
  Name : String := "ab"
  ValueTxt : String := ""
  TypeTxt : String := ""
  deriving Inhabited

/-- Parse-level loop record. -/
structure LoopP where
  Name : String := ""
  Nodes : List String := []
  deriving Inhabited

/-- Network being accumulated by `BuildNetworkFromFile`. -/
structure NetworkP where
  Resistors : List ResistorP := []
  VSources : List VSourceP := []
  Loops : List LoopP := []
  deriving Inhabited

/-- Body of `MakeResistor`'s while loop for one line: the `if "name" in txt`
and `if "resistance" in txt` field assignments. -/
def updResistorLine (R : ResistorP) (txt : String) : Option ResistorP := do
  let R ←
    if pyContains "name" txt then do
      let v ← pyEqField txt
      pure { R with Name := pyStrip v }
    else pure R
  if pyContains "resistance" txt then do
    let v ← pyEqField txt
    pure { R with ResistanceTxt := pyStrip v }
  else pure R

/-- Body of `MakeVSource`'s while loop for one line: the `name`, `value` and
`type` field assignments. -/
def updVSourceLine (vs : VSourceP) (txt : String) : Option VSourceP := do
  let vs ←
    if pyContains "name" txt then do
      let v ← pyEqField txt
      pure { vs with Name := pyStrip v }
    else pure vs
  let vs ←
    if pyContains "value" txt then do
      let v ← pyEqField txt
      pure { vs with ValueTxt := pyStrip v }
    else pure vs
  if pyContains "type" txt then do
    let v ← pyEqField txt
    pure { vs with TypeTxt := pyStrip v }
  else pure vs

/-- Body of `MakeLoop`'s while loop for one line: the `name` and `nodes`
field assignments (`nodes` first removes spaces, then splits on commas). -/
def updLoopLine (L : LoopP) (txt : String) : Option LoopP := do
  let L ←
    if pyContains "name" txt then do
      let v ← pyEqField txt
      pure { L with Name := pyStrip v }
    else pure L
  if pyContains "nodes" txt then do
    let v ← pyEqField (pyRemoveSpaces txt)
    pure { L with Nodes := pySplit ',' (pyStrip v) }
  else pure L

/-- The unguarded read-and-scan loop shared by `MakeVSource` and `MakeLoop`
(`Problem 1.py` lines 82–96 and 105–118).  The remaining lines `Txt.drop N`
are passed alongside the absolute line number `N`, so that `rest = []` is
exactly the out-of-range read `Txt[N]`: `none` models that `IndexError`.
Otherwise loop while the closing keyword is absent. -/
def scanUnguarded (kw : String) (upd : α → String → Option α) :
    List String → α → ℕ → Option (α × ℕ)
  | [], _, _ => none
  | txt0 :: rest, a, N =>
    let txt := pyLower txt0
    if pyContains kw txt then some (a, N)
    else do
      let a' ← upd a txt
      scanUnguarded kw upd rest a' (N + 1)

/-- The `ResistorNetwork.MakeVSource` (`Problem 1.py` lines 75–96): no bounds
check on the line reads. -/
def MakeVSource (Txt : List String) (net : NetworkP) (N : ℕ) :
    Option (NetworkP × ℕ) := do
  let (vs, N') ← scanUnguarded "source" updVSourceLine (Txt.drop (N + 1)) {} (N + 1)
  some ({ net with VSources := net.VSources ++ [vs] }, N')

/-- The `ResistorNetwork.MakeLoop` (`Problem 1.py` lines 98–118): no bounds check
on the line reads. -/
def MakeLoop (Txt : List String) (net : NetworkP) (N : ℕ) :
    Option (NetworkP × ℕ) := do
  let (L, N') ← scanUnguarded "loop" updLoopLine (Txt.drop (N + 1)) {} (N + 1)
  some ({ net with Loops := net.Loops ++ [L] }, N')

/-- The bounds-checked while loop of `MakeResistor` (`Problem 1.py` lines
63–71), again carrying `Txt.drop N` so that the guard `N < len(Txt)` is the
non-emptiness of the remaining lines: loop while in range and the line lacks
`"resistor"`; after advancing, re-read the line only if still in range
(otherwise `txt` keeps its old value and the guard ends the scan). -/
def scanResistor : List String → ResistorP → ℕ → String → Option (ResistorP × ℕ)
  | [], R, N, _ => some (R, N)
  | _ :: rest, R, N, txt =>
    if pyContains "resistor" txt then some (R, N)
    else do
      let R' ← updResistorLine R txt
      let txt' :=
        match rest with
        | next :: _ => pyLower next
        | [] => txt
      scanResistor rest R' (N + 1) txt'

/-- The `ResistorNetwork.MakeResistor` (`Problem 1.py` lines 49–73): the guarded
variant; a truncated file returns early (without appending) instead of
raising. -/
def MakeResistor (Txt : List String) (net : NetworkP) (N : ℕ) :
    Option (NetworkP × ℕ) :=
  match Txt.drop (N + 1) with
  | [] => some (net, N + 1)
  | txt0 :: rest => do
    let (R, N') ← scanResistor (txt0 :: rest) {} (N + 1) (pyLower txt0)
    some ({ net with Resistors := net.Resistors ++ [R] }, N')

/-- The dispatch loop of `BuildNetworkFromFile` (`Problem 1.py` lines 34–46).
`fuel` only serves Lean's termination checker: each iteration advances
`LineNum` by at least one, so starting from `Txt.length + 1` units the fuel
is never exhausted. -/
def buildLoop (Txt : List String) : ℕ → ℕ → NetworkP → Option NetworkP
  | 0, _, _ => none
  | fuel + 1, LineNum, net =>
    match Txt.get? LineNum with
    | none => some net
    | some line =>
      let lineTxt := pyStrip (pyLower line)
      if lineTxt.data.length < 1 then buildLoop Txt fuel (LineNum + 1) net
      else if lineTxt.data.headD ' ' == '#' then buildLoop Txt fuel (LineNum + 1) net
      else if pyContains "resistor" lineTxt then do
        let (net', N') ← MakeResistor Txt net LineNum
        buildLoop Txt fuel (N' + 1) net'
      else if pyContains "source" lineTxt then do
        let (net', N') ← MakeVSource Txt net LineNum
        buildLoop Txt fuel (N' + 1) net'
      else if pyContains "loop" lineTxt then do
        let (net', N') ← MakeLoop Txt net LineNum
        buildLoop Txt fuel (N' + 1) net'
      else buildLoop Txt fuel (LineNum + 1) net

/-- The `ResistorNetwork.BuildNetworkFromFile` (`Problem 1.py` lines 20–47) on the
already-split line list (`FileTxt = open(...).read().split('\n')`). -/
def BuildNetworkFromLines (Txt : List String) : Option NetworkP :=
  buildLoop Txt (Txt.length + 1) 0 {}

/-! ### Pipe network (`Problem 2.py` lines 56–412 and `HW6_2_OOP.py`)

The two copies differ in three places, embedded side by side below with the
suffixes `_P2` (`Problem 2.py`) and `_HW` (`HW6_2_OOP.py`):
* `Re`: `_P2` recomputes the velocity via `self.V()`; `_HW` reads the stored
  `self.vel`;
* `frictionHeadLoss`: `_P2` multiplies by an extra factor `4`; `_HW` does not;
* `getLoopHeadLoss`: `_P2` returns the signed sum; `_HW` returns `abs` of it.
`scipy.optimize.fsolve` and `random.normalvariate` are the two external calls
made by `FrictionFactor`; they enter through the explicit environment `Env`. -/

/-- The external collaborators used by `Pipe.FrictionFactor`: the nested
`fsolve` root-find and the `random.normalvariate` sampler (whose first and
second arguments are the mean and the standard deviation of the sampled
normal distribution). -/
structure Env where
  fsolve : (ℝ → ℝ) → ℝ → ℝ
  normalvariate : ℝ → ℝ → ℝ

/-- The `Fluid` (`Problem 2.py` lines 56–68): dynamic viscosity `mu`, density
`rho`, and the derived kinematic viscosity `nu`. -/
structure Fluid where
  mu : ℝ
  rho : ℝ
  nu : ℝ
  deriving Inhabited

/-- The `Fluid` constructor: `nu = mu / rho`. -/
noncomputable def mkFluid (mu rho : ℝ) : Fluid := ⟨mu, rho, mu / rho⟩

/-- The `Pipe` state: constructor arguments plus the fields computed or mutated
by the methods (`d` in m, cross-section `A`, flow rate `Q` in L/s, and the
scratch fields `vel` and `reynolds`). -/
structure Pipe where
  startNode : String
  endNode : String
  length : ℝ
  r : ℝ
  fluid : Fluid
  d : ℝ
  relrough : ℝ
  A : ℝ
  Q : ℝ
  vel : ℝ
  reynolds : ℝ
  deriving Inhabited

/-- The `Pipe` constructor (`Problem 2.py` lines 131–154, identical in
`HW6_2_OOP.py` lines 87–111): orientation from `min`/`max` of the two node
names, `d = D/1000`, `relrough = r/d`, `A = π/4·d²`, `Q = 10`, then
`vel = V() = Q/A` and `reynolds = Re()`. -/
noncomputable def mkPipe (Start End' : String) (L D r : ℝ) (fluid : Fluid) :
    Pipe :=
  let d := D / 1000
  let A := Real.pi / 4 * d ^ 2
  let vel := 10 / A
  { startNode := min Start End'
    endNode := max Start End'
    length := L
    r := r
    fluid := fluid
    d := d
    relrough := r / d
    A := A
    Q := 10
    vel := vel
    reynolds := fluid.rho * vel * d / fluid.mu }

/-- The `Pipe.V()`: the returned value `Q / A`. -/
noncomputable def Pipe.V (p : Pipe) : ℝ := p.Q / p.A

/-- The state effect of `Pipe.V()`: `self.vel = Q / A`. -/
noncomputable def Pipe.updateV (p : Pipe) : Pipe := { p with vel := p.Q / p.A }

/-- The `Pipe.Re()` in `Problem 2.py` (lines 166–173): uses `self.V()`, i.e.
recomputes the velocity from the current `Q`. -/
noncomputable def Pipe.Re_P2 (p : Pipe) : ℝ :=
  p.fluid.rho * p.V * p.d / p.fluid.mu

/-- The `Pipe.Re()` in `HW6_2_OOP.py` (lines 122–128): uses the stored
`self.vel`. -/
noncomputable def Pipe.Re_HW (p : Pipe) : ℝ :=
  p.fluid.rho * p.vel * p.d / p.fluid.mu

/-- The state effect of `Pipe.Re()` in `Problem 2.py`: `V()` updates `vel`,
then `reynolds` is recomputed. -/
noncomputable def Pipe.updateRe_P2 (p : Pipe) : Pipe :=
  let p1 := p.updateV
  { p1 with reynolds := p1.fluid.rho * p1.vel * p1.d / p1.fluid.mu }

/-- The state effect of `Pipe.Re()` in `HW6_2_OOP.py`: only `reynolds` is
recomputed (from the stored `vel`). -/
noncomputable def Pipe.updateRe_HW (p : Pipe) : Pipe :=
  { p with reynolds := p.fluid.rho * p.vel * p.d / p.fluid.mu }

/-- The assignment `self.pipes[i].Q = q[i]` as used by the solver callback. -/
def Pipe.setQ (p : Pipe) (q : ℝ) : Pipe := { p with Q := q }

/-- The `log10` of numpy: base-10 logarithm. -/
noncomputable def log10 (x : ℝ) : ℝ := Real.logb 10 x

/-- The Colebrook residual `CB(f)` defined inside `Pipe.FrictionFactor`
(`Problem 2.py` lines 184–186, `HW6_2_OOP.py` lines 141–146):
`1/f^0.5 + 2·log10(relrough/3.7 + 2.51/(Re·f^0.5))`, with Python's `f ** 0.5`
rendered as the real square root. -/
noncomputable def colebrook (Re rr f : ℝ) : ℝ :=
  1 / Real.sqrt f + 2 * log10 (rr / 3.7 + 2.51 / (Re * Real.sqrt f))

/-- The body of `Pipe.FrictionFactor` (`Problem 2.py` lines 175–200,
identical logic in `HW6_2_OOP.py` lines 130–167) as a function of the local
variables `Re` and `rr`: turbulent (`Re ≥ 4000`) solves the Colebrook
equation by `fsolve` from initial guess `0.01`; laminar (`Re ≤ 2000`)
returns `64/Re`; the transitional band draws `normalvariate(mean, 0.2·mean)`
around the linearly interpolated mean. -/
noncomputable def FrictionFactorCore (env : Env) (Re rr : ℝ) : ℝ :=
  if Re ≥ 4000 then env.fsolve (fun f => colebrook Re rr f) 0.01
  else if Re ≤ 2000 then 64 / Re
  else
    let CBff := env.fsolve (fun f => colebrook Re rr f) 0.01
    let Lamff := 64 / Re
    let mean := Lamff + ((Re - 2000) / (4000 - 2000)) * (CBff - Lamff)
    let sig := 0.2 * mean
    env.normalvariate mean sig

/-- The `Pipe.FrictionFactor` of `Problem 2.py`: `Re = self.Re()` recomputes the
velocity. -/
noncomputable def Pipe.FrictionFactor_P2 (env : Env) (p : Pipe) : ℝ :=
  FrictionFactorCore env p.Re_P2 p.relrough

/-- The `Pipe.FrictionFactor` of `HW6_2_OOP.py`: `Re = self.Re()` reads the
stored velocity. -/
noncomputable def Pipe.FrictionFactor_HW (env : Env) (p : Pipe) : ℝ :=
  FrictionFactorCore env p.Re_HW p.relrough

/-- The `Pipe.frictionHeadLoss` of `Problem 2.py` (lines 202–211):
`hl = 4 * ff * L * V()² / (2 * g * d)` with `g = 9.81`. -/
noncomputable def Pipe.frictionHeadLoss_P2 (env : Env) (p : Pipe) : ℝ :=
  4 * p.FrictionFactor_P2 env * p.length * p.V ^ 2 / (2 * 9.81 * p.d)

/-- The `Pipe.frictionHeadLoss` of `HW6_2_OOP.py` (lines 169–177):
`hl = ff * L * vel² / (2 * g * d)` with `g = 9.81`. -/
noncomputable def Pipe.frictionHeadLoss_HW (env : Env) (p : Pipe) : ℝ :=
  p.FrictionFactor_HW env * p.length * p.vel ^ 2 / (2 * 9.81 * p.d)

/-- The `Pipe.getFlowHeadLoss(s)` of `Problem 2.py` (lines 213–222): sign by
traversal direction (`s == startNode`) and by flow direction (`Q ≥ 0`). -/
noncomputable def Pipe.getFlowHeadLoss_P2 (env : Env) (p : Pipe) (s : String) :
    ℝ :=
  (if s == p.startNode then (1 : ℝ) else -1) * (if p.Q ≥ 0 then (1 : ℝ) else -1)
    * p.frictionHeadLoss_P2 env

/-- The `Pipe.getFlowHeadLoss(s)` of `HW6_2_OOP.py` (lines 179–189): identical
sign logic over the `_HW` head loss. -/
noncomputable def Pipe.getFlowHeadLoss_HW (env : Env) (p : Pipe) (s : String) :
    ℝ :=
  (if s == p.startNode then (1 : ℝ) else -1) * (if p.Q ≥ 0 then (1 : ℝ) else -1)
    * p.frictionHeadLoss_HW env

/-- The `Pipe.getFlowIntoNode(n)` (identical in both copies): `-Q` when `n` is the
start node, else `+Q`. -/
def Pipe.getFlowIntoNode (p : Pipe) (n : String) : ℝ :=
  if n == p.startNode then -p.Q else p.Q

/-- The traversal loop of `Loop.getLoopHeadLoss`: accumulate
`deltaP += p.getFlowHeadLoss(startNode)` and advance
`startNode = p.endNode if startNode != p.endNode else p.startNode`. -/
def loopAccumGo (f : Pipe → String → ℝ) : List Pipe → String → ℝ → ℝ
  | [], _, acc => acc
  | p :: rest, s, acc =>
    loopAccumGo f rest (if s ≠ p.endNode then p.endNode else p.startNode)
      (acc + f p s)

/-- The signed traversal sum of a pipe loop started at the first pipe's
`startNode` (the spec's loop head-loss value, §4.3). -/
def signedLoopSum (f : Pipe → String → ℝ) : List Pipe → ℝ
  | [] => 0
  | p :: rest => loopAccumGo f (p :: rest) p.startNode 0

/-- The `Loop.getLoopHeadLoss` of `Problem 2.py` (lines 114–126): returns the
signed sum `deltaP`; `none` models the `IndexError` of `self.pipes[0]` on an
empty pipe list. -/
noncomputable def getLoopHeadLoss_P2 (env : Env) (pipes : List Pipe) :
    Option ℝ :=
  match pipes with
  | [] => none
  | p0 :: rest =>
    some (loopAccumGo (fun p s => p.getFlowHeadLoss_P2 env s) (p0 :: rest)
      p0.startNode 0)

/-- The `Loop.getLoopHeadLoss` of `HW6_2_OOP.py` (lines 70–81): identical
traversal but returns `abs(deltaP)`. -/
noncomputable def getLoopHeadLoss_HW (env : Env) (pipes : List Pipe) :
    Option ℝ :=
  match pipes with
  | [] => none
  | p0 :: rest =>
    some |loopAccumGo (fun p s => p.getFlowHeadLoss_HW env s) (p0 :: rest)
      p0.startNode 0|

/-- The `Node` of the pipe network.  Python nodes hold references to pipe objects
that are mutated through `self.pipes`; the heap of pipe objects is modelled
as the network's pipe list, and a node's `pipes` are indices into it. -/
structure Node where
  name : String
  pipes : List ℕ
  extFlow : ℝ

/-- The accumulation `Qtot += p.getFlowIntoNode(self.name)` of
`Node.getNetFlowRate`, resolving pipe references through the store. -/
def getNetFlowRateGo (store : List Pipe) (nm : String) : List ℕ → ℝ → ℝ
  | [], acc => acc
  | i :: rest, acc =>
    getNetFlowRateGo store nm rest (acc + (store.getD i default).getFlowIntoNode nm)

/-- The `Node.getNetFlowRate` (identical in both copies): external flow plus the
signed flows of the connected pipes. -/
def Node.getNetFlowRate (store : List Pipe) (n : Node) : ℝ :=
  getNetFlowRateGo store n.name n.pipes n.extFlow

/-- The `Loop` of the pipe network: ordered pipe references (indices into the
network's pipe store). -/
structure PLoop where
  name : String
  pipes : List ℕ

/-- The `PipeNetwork` aggregate. -/
structure PipeNetwork where
  pipes : List Pipe
  loops : List PLoop
  nodes : List Node

/-- The mutation loop `for i in range(len(self.pipes)): self.pipes[i].Q = q[i]`
at the top of the solver callback; `none` models the `IndexError` when `q` is
shorter than the pipe list. -/
def setPipeQ (store : List Pipe) (q : List ℝ) : Option (List Pipe) :=
  if store.length ≤ q.length then
    some (store.zipWith (fun p qi => p.setQ qi) q)
  else none

/-- The `PipeNetwork.getLoopHeadLosses` of `HW6_2_OOP.py`: one head loss per
loop, resolving pipe references through the (mutated) store. -/
noncomputable def getLoopHeadLossesGo (env : Env) (store : List Pipe) :
    List PLoop → Option (List ℝ)
  | [] => some []
  | L :: Ls => do
    let v ← getLoopHeadLoss_HW env (L.pipes.map (fun i => store.getD i default))
    let rest ← getLoopHeadLossesGo env store Ls
    pure (v :: rest)

/-- The callback `fn(q)` defined inside `PipeNetwork.findFlowRates` of
`HW6_2_OOP.py` (lines 245–270): write `q` into the pipes' `Q` fields, then
return the concatenation of the node net-flow rates and the loop head
losses.  The updated pipe store is returned alongside the residual. -/
noncomputable def fn_HW (env : Env) (pn : PipeNetwork) (q : List ℝ) :
    Option (List Pipe × List ℝ) := do
  let store ← setPipeQ pn.pipes q
  let node_flow_rates := pn.nodes.map (fun n => n.getNetFlowRate store)
  let loop_head_losses ← getLoopHeadLossesGo env store pn.loops
  some (store, node_flow_rates ++ loop_head_losses)

/-- The `PipeNetwork.findFlowRates` of `HW6_2_OOP.py` (lines 234–270): computes
`N` and the initial guess `Q0`, defines the callback `fn` — and then falls
off the end of the method without ever calling `fsolve`, returning `None`
(`none`) and leaving the network untouched. -/
noncomputable def findFlowRates_HW (env : Env) (pn : PipeNetwork) :
    Option (List ℝ) × PipeNetwork :=
  let _N := pn.nodes.length + pn.loops.length
  let _Q0 := List.replicate pn.pipes.length (10 : ℝ)
  let _fn := fn_HW env pn
  (none, pn)

/-! ### Concrete instances used by the claims' counterexamples and witnesses -/

/-- An environment with inert collaborators; the laminar code paths never
consult it. -/
def env0 : Env := ⟨fun _ _ => 0, fun _ _ => 0⟩

/-- An environment whose `fsolve` returns the constant `1/4` — an exact root
of the Colebrook equation at `Re = 5020`, `rr = 3663/10000` — and whose
sampler returns its mean argument. -/
noncomputable def envCB : Env := ⟨fun _ _ => 1 / 4, fun m _ => m⟩

/-- The `Pipe('a','b', L, 1000, 0, Fluid(1000, 1))`: diameter 1 m, so `Re` is
laminar (`Re = 1/(25π)`) and the friction factor is deterministic. -/
noncomputable def pipeL (L : ℝ) : Pipe := mkPipe "a" "b" L 1000 0 (mkFluid 1000 1)

/-- A network holding the four resistors referenced by the `Problem 2.py`
override plus `cd` (referenced by the `Problem_1_Test_2.py` one), no loops. -/
def c5Net : ResistorNetwork :=
  ⟨[⟨"ad", 1, 0⟩, ⟨"bc", 1, 0⟩, ⟨"parallel_resistor", 1, 0⟩, ⟨"ce", 1, 0⟩,
    ⟨"cd", 1, 0⟩], [], []⟩

/-- A network holding the five resistors referenced by the `HW6_1_2_OOP.py`
override, no loops. -/
def c6Net : ResistorNetwork :=
  ⟨[⟨"ad", 1, 0⟩, ⟨"bc", 1, 0⟩, ⟨"cd", 1, 0⟩, ⟨"ce", 1, 0⟩, ⟨"df", 1, 0⟩],
    [], []⟩

/-- A pipe state with unit geometry fields; only its endpoints and `Q`
matter to the residual-length claim it serves. -/
def c6Pipe : Pipe := ⟨"a", "b", 1, 0, ⟨1, 1, 1⟩, 1, 0, 1, 10, 1, 1⟩

/-- A one-pipe, two-node, zero-loop pipe network: the smallest network on
which the callback's residual length differs from the pipe count. -/
def c6Pn : PipeNetwork := ⟨[c6Pipe], [], [⟨"a", [0], 0⟩, ⟨"b", [0], 0⟩]⟩

/-- A network holding a single 12 V source named `de`. -/
def c4Net : ResistorNetwork := ⟨[], [⟨"de", 12⟩], []⟩

/-- A five-entry current vector for exercising the `Problem 2.py` and
`Problem_1_Test_2.py` residual overrides. -/
def c5i : List ℝ := [1, 2, 3, 4, 5]

/-- The `c5Net` after `GetKirchoffVals_P2 c5Net c5i`: currents `ad,bc ← i[0]`,
`parallel_resistor ← i[4]`, `ce ← i[1]`. -/
def c5NetAfterP2 : ResistorNetwork :=
  ⟨[⟨"ad", 1, 1⟩, ⟨"bc", 1, 1⟩, ⟨"parallel_resistor", 1, 5⟩, ⟨"ce", 1, 2⟩,
    ⟨"cd", 1, 0⟩], [], []⟩

/-- The `c5Net` after `GetKirchoffVals_T2 c5Net c5i`: currents `ad,bc ← i[0]`,
`cd ← i[2]`, `ce ← i[1]`. -/
def c5NetAfterT2 : ResistorNetwork :=
  ⟨[⟨"ad", 1, 1⟩, ⟨"bc", 1, 1⟩, ⟨"parallel_resistor", 1, 0⟩, ⟨"ce", 1, 2⟩,
    ⟨"cd", 1, 3⟩], [], []⟩

/-- A four-entry current vector for the `HW6_1_2_OOP.py` override. -/
def c6i : List ℝ := [1, 2, 3, 4]

/-- The `c6Net` after `GetKirchoffVals_12 c6Net c6i`. -/
def c6NetAfter : ResistorNetwork :=
  ⟨[⟨"ad", 1, 1⟩, ⟨"bc", 1, 1⟩, ⟨"cd", 1, 3⟩, ⟨"ce", 1, 2⟩, ⟨"df", 1, 4⟩],
    [], []⟩

/-- A network holding a single resistor named `ab`. -/
def c8Net : ResistorNetwork := ⟨[⟨"ab", 1, 0⟩], [], []⟩

/-! ## Helper lemmas -/

/-- The `loopDropsAux` yields one entry per loop whenever it completes. -/
lemma loopDropsAux_length (net : ResistorNetwork) :
    ∀ (Ls : List RLoop) (vs : List ℝ),
      loopDropsAux net Ls = some vs → vs.length = Ls.length := by
  intro Ls
  induction Ls with
  | nil => intro vs h; simp only [loopDropsAux, Option.some.injEq] at h; subst h; rfl
  | cons L Ls ih =>
    intro vs h
    simp only [loopDropsAux, bind, Option.bind_eq_some, Option.pure_def,
      Option.some.injEq] at h
    obtain ⟨v, -, rest, hrest, h⟩ := h
    subst h
    simp [ih rest hrest]

/-- The `getLoopHeadLossesGo` yields one entry per loop whenever it completes. -/
lemma getLoopHeadLossesGo_length (env : Env) (store : List Pipe) :
    ∀ (Ls : List PLoop) (vs : List ℝ),
      getLoopHeadLossesGo env store Ls = some vs → vs.length = Ls.length := by
  intro Ls
  induction Ls with
  | nil =>
    intro vs h
    simp only [getLoopHeadLossesGo, Option.some.injEq] at h; subst h; rfl
  | cons L Ls ih =>
    intro vs h
    simp only [getLoopHeadLossesGo, bind, Option.bind_eq_some, Option.pure_def,
      Option.some.injEq] at h
    obtain ⟨v, -, rest, hrest, h⟩ := h
    subst h
    simp [ih rest hrest]

lemma min_ab : min ("a" : String) "b" = "a" := by
  apply min_eq_left
  rw [String.le_iff_toList_le]
  decide

lemma max_ab : max ("a" : String) "b" = "b" := by
  apply max_eq_right
  rw [String.le_iff_toList_le]
  decide

lemma pipeL_startNode (L : ℝ) : (pipeL L).startNode = "a" := by
  simp [pipeL, mkPipe, min_ab]

lemma pipeL_endNode (L : ℝ) : (pipeL L).endNode = "b" := by
  simp [pipeL, mkPipe, max_ab]

lemma pipeL_length (L : ℝ) : (pipeL L).length = L := by
  simp [pipeL, mkPipe]

lemma pipeL_d (L : ℝ) : (pipeL L).d = 1 := by
  simp [pipeL, mkPipe]

lemma pipeL_relrough (L : ℝ) : (pipeL L).relrough = 0 := by
  simp [pipeL, mkPipe]

lemma pipeL_A (L : ℝ) : (pipeL L).A = Real.pi / 4 := by
  simp [pipeL, mkPipe]

lemma pipeL_Q (L : ℝ) : (pipeL L).Q = 10 := by
  simp [pipeL, mkPipe]

lemma pipeL_mu (L : ℝ) : (pipeL L).fluid.mu = 1000 := by
  simp [pipeL, mkPipe, mkFluid]

lemma pipeL_rho (L : ℝ) : (pipeL L).fluid.rho = 1 := by
  simp [pipeL, mkPipe, mkFluid]

lemma pipeL_vel (L : ℝ) : (pipeL L).vel = 40 / Real.pi := by
  have hπ : Real.pi ≠ 0 := Real.pi_ne_zero
  simp only [pipeL, mkPipe]
  field_simp
  ring

lemma pipeL_V (L : ℝ) : (pipeL L).V = 40 / Real.pi := by
  unfold Pipe.V
  rw [pipeL_Q, pipeL_A]
  have hπ : Real.pi ≠ 0 := Real.pi_ne_zero
  field_simp
  ring

/-- The linear pipes `pipeL L` sit in the laminar regime:
`Re = 1/(25π)` for the stored-velocity Reynolds number. -/
lemma Re_HW_pipeL (L : ℝ) : (pipeL L).Re_HW = 1 / (25 * Real.pi) := by
  unfold Pipe.Re_HW
  rw [pipeL_rho, pipeL_vel, pipeL_d, pipeL_mu]
  have hπ : Real.pi ≠ 0 := Real.pi_ne_zero
  field_simp
  ring

/-- Same value for the recomputed-velocity Reynolds number. -/
lemma Re_P2_pipeL (L : ℝ) : (pipeL L).Re_P2 = 1 / (25 * Real.pi) := by
  unfold Pipe.Re_P2
  rw [pipeL_rho, pipeL_V, pipeL_d, pipeL_mu]
  have hπ : Real.pi ≠ 0 := Real.pi_ne_zero
  field_simp
  ring

/-- At `Re = 1/(25π)` the friction factor takes the laminar branch:
`64/Re = 1600π`. -/
lemma FF_laminar_eval :
    FrictionFactorCore env0 (1 / (25 * Real.pi)) 0 = 1600 * Real.pi := by
  have hπ : (0 : ℝ) < Real.pi := Real.pi_pos
  have h25 : (0 : ℝ) < 25 * Real.pi := by positivity
  have hsmall : 1 / (25 * Real.pi) < 1 := by
    rw [div_lt_one h25]
    nlinarith [Real.pi_gt_three]
  have h1 : ¬ (1 / (25 * Real.pi) ≥ 4000) := not_le.mpr (by linarith)
  have h2 : 1 / (25 * Real.pi) ≤ 2000 := by linarith
  unfold FrictionFactorCore
  rw [if_neg h1, if_pos h2]
  field_simp
  ring

lemma fhl_HW_pipeL (L : ℝ) :
    Pipe.frictionHeadLoss_HW env0 (pipeL L) = 256000000 * L / (1962 * Real.pi) := by
  unfold Pipe.frictionHeadLoss_HW Pipe.FrictionFactor_HW
  rw [Re_HW_pipeL, pipeL_relrough, FF_laminar_eval, pipeL_length, pipeL_vel,
    pipeL_d, show (9.81 : ℝ) = 981 / 100 by norm_num]
  have hπ : Real.pi ≠ 0 := Real.pi_ne_zero
  field_simp
  ring

lemma claimedP2_pipeL :
    Pipe.FrictionFactor_P2 env0 (pipeL 1) * (pipeL 1).length * (pipeL 1).V ^ 2
      / (2 * 9.81 * (pipeL 1).d) = 256000000 / (1962 * Real.pi) := by
  unfold Pipe.FrictionFactor_P2
  rw [Re_P2_pipeL, pipeL_relrough, FF_laminar_eval, pipeL_length, pipeL_V,
    pipeL_d, show (9.81 : ℝ) = 981 / 100 by norm_num]
  have hπ : Real.pi ≠ 0 := Real.pi_ne_zero
  field_simp
  ring

lemma fhlP2_pipeL :
    Pipe.frictionHeadLoss_P2 env0 (pipeL 1) = 4 * (256000000 / (1962 * Real.pi)) := by
  unfold Pipe.frictionHeadLoss_P2 Pipe.FrictionFactor_P2
  rw [Re_P2_pipeL, pipeL_relrough, FF_laminar_eval, pipeL_length, pipeL_V,
    pipeL_d, show (9.81 : ℝ) = 981 / 100 by norm_num]
  have hπ : Real.pi ≠ 0 := Real.pi_ne_zero
  field_simp
  ring

lemma gfhl_p1_eval :
    (pipeL 1).getFlowHeadLoss_HW env0 "a" = 256000000 / (1962 * Real.pi) := by
  unfold Pipe.getFlowHeadLoss_HW
  rw [pipeL_startNode, pipeL_Q, fhl_HW_pipeL]
  have h1 : (("a" : String) == "a") = true := rfl
  rw [if_pos h1, if_pos (by norm_num : (10 : ℝ) ≥ 0)]
  ring

lemma gfhl_p2_eval :
    (pipeL 2).getFlowHeadLoss_HW env0 "b" = -(512000000 / (1962 * Real.pi)) := by
  unfold Pipe.getFlowHeadLoss_HW
  rw [pipeL_startNode, pipeL_Q, fhl_HW_pipeL]
  have h1 : ¬ ((("b" : String) == "a") = true) := by decide
  rw [if_neg h1, if_pos (by norm_num : (10 : ℝ) ≥ 0)]
  ring

/-- The signed traversal sum of the two-pipe loop `[pipeL 1, pipeL 2]` (two
parallel `a`–`b` pipes, the second traversed `b → a`) is negative. -/
lemma c3_signed_sum_eval :
    loopAccumGo (fun p s => p.getFlowHeadLoss_HW env0 s) [pipeL 1, pipeL 2] "a" 0
      = 256000000 / (1962 * Real.pi) - 512000000 / (1962 * Real.pi) := by
  simp only [loopAccumGo, pipeL_endNode, pipeL_startNode]
  rw [if_pos (by decide : ("a" : String) ≠ "b")]
  rw [gfhl_p1_eval, gfhl_p2_eval]
  ring

/-! ## Claim theorems -/

/-- C10: in the `HW6_2_OOP.py` variant, `PipeNetwork.findFlowRates` defines
its residual callback but never invokes the root finder: for every network
it returns `None`, and the call leaves every pipe field (in particular every
flow rate `Q`) unchanged. -/
theorem C10_findFlowRates_never_solves (env : Env) (pn : PipeNetwork) :
    findFlowRates_HW env pn = (none, pn) := rfl

/-- C4 (code evaluated at the failing input): `GetElementDeltaV` on a network
whose only element is the 12 V source `de` returns `+12` both for the forward
name `de` and for the reverse spelling `ed`, instead of the `-12` the claim
requires for the reverse traversal. -/
theorem C4_reversed_source_not_negated :
    GetElementDeltaV c4Net "de" = some 12 ∧
    GetElementDeltaV c4Net "ed" = some 12 ∧
    GetElementDeltaV c4Net "ed" ≠ some (-12 : ℝ) := by
  refine ⟨rfl, rfl, ?_⟩
  have h : GetElementDeltaV c4Net "ed" = some 12 := rfl
  rw [h]
  simp only [ne_eq, Option.some.injEq]
  norm_num

/-- C8 counterexample: on a name matching no element, `GetResistorByName`
and `GetElementDeltaV` return Python `None` (a silently missing value,
modelled `none`) — they do not fail fast with an error identifying the
offending name. -/
theorem C8_counterexample :
    GetResistorByName c8Net.Resistors "zz" = none ∧
    GetElementDeltaV c8Net "zz" = none := ⟨rfl, rfl⟩

/-- C8 as amended: for every name that matches no element (neither forward
nor reverse-spelled), the lookups return `None` — the missing value is handed
back to the caller, which only fails later when it uses it, without any error
naming the offending lookup. -/
theorem C8_amended :
    (∀ (rs : List Resistor) (name : String), (∀ r ∈ rs, r.Name ≠ name) →
      GetResistorByName rs name = none) ∧
    (∀ (net : ResistorNetwork) (name : String),
      (∀ r ∈ net.Resistors, name ≠ r.Name ∧ pyReverse name ≠ r.Name) →
      (∀ v ∈ net.VSources, name ≠ v.Name ∧ pyReverse name ≠ v.Name) →
      GetElementDeltaV net name = none) := by
  constructor
  · intro rs name h
    unfold GetResistorByName
    rw [List.find?_eq_none]
    intro r hr
    simp [h r hr]
  · intro net name hr hv
    have h1 : net.Resistors.find?
        (fun r => name == r.Name || pyReverse name == r.Name) = none := by
      rw [List.find?_eq_none]
      intro r hrr
      simp [(hr r hrr).1, (hr r hrr).2]
    have h2 : net.VSources.find?
        (fun v => name == v.Name || pyReverse name == v.Name) = none := by
      rw [List.find?_eq_none]
      intro v hvv
      simp [(hv v hvv).1, (hv v hvv).2]
    unfold GetElementDeltaV
    rw [h1, h2]

/-- C8 witness: the amended statement applied to the one-resistor network and
the unmatched name `zz`. -/
theorem C8_witness :
    ((∀ r ∈ c8Net.Resistors, r.Name ≠ "zz") ∧
      GetResistorByName c8Net.Resistors "zz" = none) ∧
    ((∀ r ∈ c8Net.Resistors, "zz" ≠ r.Name ∧ pyReverse "zz" ≠ r.Name) ∧
      (∀ v ∈ c8Net.VSources, "zz" ≠ v.Name ∧ pyReverse "zz" ≠ v.Name) ∧
      GetElementDeltaV c8Net "zz" = none) := by
  have h1 : ∀ r ∈ c8Net.Resistors, r.Name ≠ "zz" := by
    intro r hrr
    simp only [c8Net, List.mem_singleton] at hrr
    subst hrr
    decide
  have h2 : ∀ r ∈ c8Net.Resistors, "zz" ≠ r.Name ∧ pyReverse "zz" ≠ r.Name := by
    intro r hrr
    simp only [c8Net, List.mem_singleton] at hrr
    subst hrr
    exact ⟨by decide, by decide⟩
  have h3 : ∀ v ∈ c8Net.VSources, "zz" ≠ v.Name ∧ pyReverse "zz" ≠ v.Name := by
    intro v hvv
    simp only [c8Net, List.not_mem_nil] at hvv
  exact ⟨⟨h1, C8_amended.1 c8Net.Resistors "zz" h1⟩,
    ⟨h2, h3, C8_amended.2 c8Net "zz" h2 h3⟩⟩

/-- C9 (code evaluated at the failing input): a file whose final `source`
(resp. `loop`) block is never closed makes `MakeVSource` (resp. `MakeLoop`)
read one line past the end of the line list — an `IndexError` crash
(`none`) — so `BuildNetworkFromFile` does not terminate gracefully; by
contrast the bounds-checked `MakeResistor` handles the same truncation
gracefully. -/
theorem C9_truncated_block_crashes :
    BuildNetworkFromLines ["source", "name = ab"] = none ∧
    MakeVSource ["source", "name = ab"] {} 0 = none ∧
    MakeLoop ["loop", "name = lp"] {} 0 = none ∧
    BuildNetworkFromLines ["resistor"] = some {} :=
  ⟨rfl, rfl, rfl, rfl⟩

/-- C5 counterexample: the residual override of `Problem 2.py` does not
return the all-zero vector for every network state — on a network with no
resistors the lookup of `ad` yields `None` and the attribute assignment
crashes (`none`); likewise for the `Problem_1_Test_2.py` variant. -/
theorem C5_counterexample :
    GetKirchoffVals_P2 ⟨[], [], []⟩ [0, 0, 0, 0, 0] = none ∧
    GetKirchoffVals_T2 ⟨[], [], []⟩ [0, 0, 0, 0, 0] = none := ⟨rfl, rfl⟩

/-- C5 as amended: whenever the overridden `GetKirchoffVals` of
`Problem 2.py` or `Problem_1_Test_2.py` completes — the referenced resistors
exist, `i` is long enough, and every loop segment resolves — it returns the
all-zero vector of the same length as `i`, regardless of the element values;
calls that fail a lookup or an index access crash instead. -/
theorem C5_amended :
    (∀ (net : ResistorNetwork) (i : List ℝ) (net' : ResistorNetwork)
      (out : List ℝ), GetKirchoffVals_P2 net i = some (net', out) →
        out = List.replicate i.length 0) ∧
    (∀ (net : ResistorNetwork) (i : List ℝ) (net' : ResistorNetwork)
      (out : List ℝ), GetKirchoffVals_T2 net i = some (net', out) →
        out = List.replicate i.length 0) := by
  constructor
  · intro net i net' out h
    simp only [GetKirchoffVals_P2, bind, Option.bind_eq_some, Option.some.injEq,
      Prod.mk.injEq] at h
    obtain ⟨_, -, _, -, _, -, _, -, _, -, _, -, _, -, _, -, _, -, -, hout⟩ := h
    exact hout.symm
  · intro net i net' out h
    simp only [GetKirchoffVals_T2, bind, Option.bind_eq_some, Option.some.injEq,
      Prod.mk.injEq] at h
    obtain ⟨_, -, _, -, _, -, _, -, _, -, _, -, _, -, _, -, -, hout⟩ := h
    exact hout.symm

/-- C5 witness: the amended statement applied to a network holding the
referenced resistors and the current vector `[1,2,3,4,5]`. -/
theorem C5_witness :
    (GetKirchoffVals_P2 c5Net c5i = some (c5NetAfterP2, [0, 0, 0, 0, 0]) ∧
      ([0, 0, 0, 0, 0] : List ℝ) = List.replicate c5i.length 0) ∧
    (GetKirchoffVals_T2 c5Net c5i = some (c5NetAfterT2, [0, 0, 0, 0, 0]) ∧
      ([0, 0, 0, 0, 0] : List ℝ) = List.replicate c5i.length 0) := by
  have hP : GetKirchoffVals_P2 c5Net c5i = some (c5NetAfterP2, [0, 0, 0, 0, 0]) := rfl
  have hT : GetKirchoffVals_T2 c5Net c5i = some (c5NetAfterT2, [0, 0, 0, 0, 0]) := rfl
  exact ⟨⟨hP, C5_amended.1 c5Net c5i c5NetAfterP2 _ hP⟩,
    ⟨hT, C5_amended.2 c5Net c5i c5NetAfterT2 _ hT⟩⟩

/-- C6 counterexample: the callback `fn` of `HW6_2_OOP.py`'s
`findFlowRates`, fed the method's own intended unknown vector (one entry per
pipe, value 10), returns a residual of length `len(nodes) + len(loops) = 2`
for a length-1 input. -/
theorem C6_counterexample :
    (fn_HW env0 c6Pn [10]).map (fun res => res.2.length) = some 2 ∧
    ([(10 : ℝ)] : List ℝ).length = 1 ∧ (2 : ℕ) ≠ 1 :=
  ⟨rfl, rfl, by decide⟩

/-- C6 as amended: the residual length is fixed by the network, not by the
unknown vector — `fn` returns `len(nodes) + len(loops)` entries and the
`HW6_1_2_OOP.py` `GetKirchoffVals` returns `len(Loops) + 2` entries whenever
they complete; these coincide with the input length only accidentally. -/
theorem C6_amended :
    (∀ (env : Env) (pn : PipeNetwork) (q : List ℝ) (st : List Pipe)
      (out : List ℝ), fn_HW env pn q = some (st, out) →
        out.length = pn.nodes.length + pn.loops.length) ∧
    (∀ (net : ResistorNetwork) (i : List ℝ) (net' : ResistorNetwork)
      (out : List ℝ), GetKirchoffVals_12 net i = some (net', out) →
        out.length = net.Loops.length + 2) := by
  constructor
  · intro env pn q st out h
    simp only [fn_HW, bind, Option.bind_eq_some, Option.some.injEq,
      Prod.mk.injEq] at h
    obtain ⟨store, -, losses, hlosses, -, hout⟩ := h
    subst hout
    simp [getLoopHeadLossesGo_length env store pn.loops losses hlosses]
  · intro net i net' out h
    simp only [GetKirchoffVals_12, GetLoopVoltageDrops, bind,
      Option.bind_eq_some, Option.some.injEq, Prod.mk.injEq] at h
    obtain ⟨_, -, _, -, _, -, _, -, _, -, _, -, _, -, _, -, _, -,
      drops, hdrops, hnet, hout⟩ := h
    subst hout
    have hlen := loopDropsAux_length _ net.Loops drops hdrops
    simp [hlen]

/-- C6 witness: the amended statement applied to the one-pipe network (for
`fn`) and to `c6Net` with `i = [1,2,3,4]` (for the resistor override). -/
theorem C6_witness :
    (fn_HW env0 c6Pn [5] =
        some ([⟨"a", "b", 1, 0, ⟨1, 1, 1⟩, 1, 0, 1, 5, 1, 1⟩], [0 + -5, 0 + 5]) ∧
      ([0 + -5, 0 + 5] : List ℝ).length = c6Pn.nodes.length + c6Pn.loops.length) ∧
    (GetKirchoffVals_12 c6Net c6i = some (c6NetAfter, [1 + 2 - 3 - 4, 0]) ∧
      ([1 + 2 - 3 - 4, 0] : List ℝ).length = c6Net.Loops.length + 2) := by
  have h1 : fn_HW env0 c6Pn [5] =
      some ([⟨"a", "b", 1, 0, ⟨1, 1, 1⟩, 1, 0, 1, 5, 1, 1⟩], [0 + -5, 0 + 5]) := rfl
  have h2 : GetKirchoffVals_12 c6Net c6i = some (c6NetAfter, [1 + 2 - 3 - 4, 0]) := rfl
  exact ⟨⟨h1, C6_amended.1 env0 c6Pn [5] _ _ h1⟩,
    ⟨h2, C6_amended.2 c6Net c6i _ _ h2⟩⟩

/-- C7 counterexample: the constructor does not establish the strict
invariant for every argument pair — with equal node names
`Pipe('a','a',...)` yields `startNode = endNode`. -/
theorem C7_counterexample :
    ¬ ((mkPipe "a" "a" 1 1000 0 (mkFluid 1000 1)).startNode <
        (mkPipe "a" "a" 1 1000 0 (mkFluid 1000 1)).endNode) := by
  simp [mkPipe]

/-- C7 as amended: for every pair of *distinct* node-name arguments in either
order the constructor establishes `startNode < endNode` lexicographically,
and every pipe operation (the `Q` assignment, `V()`, and both variants of
`Re()`) preserves `startNode` and `endNode` unchanged. -/
theorem C7_amended :
    (∀ (S E : String) (L D r : ℝ) (fl : Fluid), S ≠ E →
      (mkPipe S E L D r fl).startNode < (mkPipe S E L D r fl).endNode) ∧
    (∀ (p : Pipe) (q : ℝ),
      (p.setQ q).startNode = p.startNode ∧ (p.setQ q).endNode = p.endNode ∧
      p.updateV.startNode = p.startNode ∧ p.updateV.endNode = p.endNode ∧
      p.updateRe_P2.startNode = p.startNode ∧ p.updateRe_P2.endNode = p.endNode ∧
      p.updateRe_HW.startNode = p.startNode ∧ p.updateRe_HW.endNode = p.endNode) := by
  refine ⟨fun S E L D r fl h => ?_,
    fun p q => ⟨rfl, rfl, rfl, rfl, rfl, rfl, rfl, rfl⟩⟩
  simpa [mkPipe] using min_lt_max.mpr h

/-- C7 witness: the amended statement applied to the distinct pair
`('a','b')`. -/
theorem C7_witness :
    (("a" : String) ≠ "b") ∧
    (mkPipe "a" "b" 1 1000 0 (mkFluid 1000 1)).startNode <
      (mkPipe "a" "b" 1 1000 0 (mkFluid 1000 1)).endNode :=
  ⟨by decide, C7_amended.1 "a" "b" 1 1000 0 (mkFluid 1000 1) (by decide)⟩

/-- C1 (code evaluated at the failing input, plus the general identity): the
`Problem 2.py` head loss is `4 ×` the Darcy-Weisbach value
`f·L·v²/(2·g·d)` claimed — shown in general and at the concrete laminar pipe
`Pipe('a','b',1,1000,0,Fluid(1000,1))`, where the two differ — while the
`HW6_2_OOP.py` copy matches the claimed formula exactly. -/
theorem C1_headloss_factor_four :
    (∀ (env : Env) (p : Pipe), p.frictionHeadLoss_P2 env =
      4 * (p.FrictionFactor_P2 env * p.length * p.V ^ 2 / (2 * 9.81 * p.d))) ∧
    (∀ (env : Env) (p : Pipe), p.frictionHeadLoss_HW env =
      p.FrictionFactor_HW env * p.length * p.vel ^ 2 / (2 * 9.81 * p.d)) ∧
    Pipe.frictionHeadLoss_P2 env0 (pipeL 1) ≠
      Pipe.FrictionFactor_P2 env0 (pipeL 1) * (pipeL 1).length * (pipeL 1).V ^ 2
        / (2 * 9.81 * (pipeL 1).d) := by
  refine ⟨fun env p => by unfold Pipe.frictionHeadLoss_P2; ring,
    fun env p => rfl, ?_⟩
  rw [fhlP2_pipeL, claimedP2_pipeL]
  have hP : (0 : ℝ) < 256000000 / (1962 * Real.pi) := by positivity
  intro h
  nlinarith

/-- C2: the friction-factor regime split.  Laminar (`Re ≤ 2000`) returns
exactly `64/Re`; turbulent (`Re ≥ 4000`) returns the value of the nested
root-find on the Colebrook residual from initial guess `0.01` (and when that
root-find returns a root, the returned friction factor satisfies the
Colebrook equation); transitional (`2000 < Re < 4000`) calls the normal
sampler with mean `laminar + ((Re-2000)/2000)·(turbulent - laminar)` and
standard deviation `0.2 ×` that mean. -/
theorem C2_friction_regimes (env : Env) (Re rr : ℝ) :
    (Re ≤ 2000 → FrictionFactorCore env Re rr = 64 / Re) ∧
    (Re ≥ 4000 →
      FrictionFactorCore env Re rr = env.fsolve (fun f => colebrook Re rr f) 0.01 ∧
      (colebrook Re rr (env.fsolve (fun f => colebrook Re rr f) 0.01) = 0 →
        colebrook Re rr (FrictionFactorCore env Re rr) = 0)) ∧
    (2000 < Re → Re < 4000 →
      FrictionFactorCore env Re rr =
        env.normalvariate
          (64 / Re + (Re - 2000) / (4000 - 2000) *
            (env.fsolve (fun f => colebrook Re rr f) 0.01 - 64 / Re))
          (0.2 * (64 / Re + (Re - 2000) / (4000 - 2000) *
            (env.fsolve (fun f => colebrook Re rr f) 0.01 - 64 / Re)))) := by
  refine ⟨fun h => ?_, fun h => ?_, fun h1 h2 => ?_⟩
  · unfold FrictionFactorCore
    rw [if_neg (not_le.mpr (lt_of_le_of_lt h (by norm_num))), if_pos h]
  · have he : FrictionFactorCore env Re rr =
        env.fsolve (fun f => colebrook Re rr f) 0.01 := by
      unfold FrictionFactorCore
      rw [if_pos h]
    exact ⟨he, fun hroot => he ▸ hroot⟩
  · unfold FrictionFactorCore
    rw [if_neg (not_le.mpr h2), if_neg (not_le.mpr h1)]

/-- The value `f = 1/4` is an exact root of the Colebrook residual at `Re = 5020`,
`rr = 3663/10000`: the inner argument evaluates to `1/10`, whose base-10
logarithm is `-1`, and `1/√(1/4) = 2`. -/
lemma colebrook_root : colebrook 5020 (3663 / 10000) (1 / 4) = 0 := by
  have h4 : Real.sqrt (1 / 4) = 1 / 2 := by
    rw [show (1 / 4 : ℝ) = (1 / 2) ^ 2 by norm_num,
      Real.sqrt_sq (by norm_num : (0 : ℝ) ≤ 1 / 2)]
  unfold colebrook log10
  rw [h4]
  have hinner : (3663 / 10000 : ℝ) / 3.7 + 2.51 / (5020 * (1 / 2)) = 1 / 10 := by
    norm_num
  rw [hinner]
  have hlog : Real.logb 10 (1 / 10 : ℝ) = -1 := by
    rw [show (1 / 10 : ℝ) = ((10 : ℝ))⁻¹ by norm_num, Real.logb_inv,
      Real.logb_self_eq_one (by norm_num)]
  rw [hlog]
  norm_num

/-- C2 witness: the regime theorem applied at `Re = 1000` (laminar), at
`Re = 5020` with `rr = 3663/10000` under the environment whose root-finder
returns the exact Colebrook root `1/4` (turbulent), and at `Re = 3000`
(transitional). -/
theorem C2_witness :
    ((1000 : ℝ) ≤ 2000 ∧ FrictionFactorCore envCB 1000 0 = 64 / 1000) ∧
    ((5020 : ℝ) ≥ 4000 ∧
      colebrook 5020 (3663 / 10000)
        (FrictionFactorCore envCB 5020 (3663 / 10000)) = 0) ∧
    (2000 < (3000 : ℝ) ∧ (3000 : ℝ) < 4000 ∧
      FrictionFactorCore envCB 3000 0 =
        envCB.normalvariate
          (64 / 3000 + (3000 - 2000) / (4000 - 2000) *
            (envCB.fsolve (fun f => colebrook 3000 0 f) 0.01 - 64 / 3000))
          (0.2 * (64 / 3000 + (3000 - 2000) / (4000 - 2000) *
            (envCB.fsolve (fun f => colebrook 3000 0 f) 0.01 - 64 / 3000)))) := by
  have hroot : envCB.fsolve (fun f => colebrook 5020 (3663 / 10000) f) 0.01 = 1 / 4 :=
    rfl
  refine ⟨⟨by norm_num, (C2_friction_regimes envCB 1000 0).1 (by norm_num)⟩,
    ⟨by norm_num, ?_⟩,
    ⟨by norm_num, by norm_num,
      (C2_friction_regimes envCB 3000 0).2.2 (by norm_num) (by norm_num)⟩⟩
  exact ((C2_friction_regimes envCB 5020 (3663 / 10000)).2.1 (by norm_num)).2
    (by rw [hroot]; exact colebrook_root)

/-- C3 counterexample: for the loop of two parallel `a`–`b` pipes
`[Pipe('a','b',1,1000,0,Fluid(1000,1)), Pipe('a','b',2,1000,0,...)]` the
signed traversal sum is negative, and the `HW6_2_OOP.py` `getLoopHeadLoss`
returns its absolute value, not the signed sum itself. -/
theorem C3_counterexample :
    getLoopHeadLoss_HW env0 [pipeL 1, pipeL 2] ≠
      some (signedLoopSum (fun p s => p.getFlowHeadLoss_HW env0 s)
        [pipeL 1, pipeL 2]) := by
  have hP : (0 : ℝ) < 256000000 / (1962 * Real.pi) := by positivity
  have hS : loopAccumGo (fun p s => p.getFlowHeadLoss_HW env0 s)
      [pipeL 1, pipeL 2] "a" 0 = -(256000000 / (1962 * Real.pi)) := by
    rw [c3_signed_sum_eval]
    ring
  simp only [getLoopHeadLoss_HW, signedLoopSum, pipeL_startNode, hS, abs_neg,
    ne_eq, Option.some.injEq]
  rw [abs_of_pos hP]
  intro h
  nlinarith

/-- C3 as amended: for every loop with a non-empty pipe list, the traversal
starts at the first pipe's `startNode`, adds each pipe's signed
`getFlowHeadLoss(currentNode)` and advances to the pipe's far node; the
`Problem 2.py` copy returns this signed sum, while the `HW6_2_OOP.py` copy
returns its absolute value (both are zero at a true solution). -/
theorem C3_amended (env : Env) (p : Pipe) (ps : List Pipe) :
    getLoopHeadLoss_P2 env (p :: ps) =
      some (signedLoopSum (fun q s => q.getFlowHeadLoss_P2 env s) (p :: ps)) ∧
    getLoopHeadLoss_HW env (p :: ps) =
      some |signedLoopSum (fun q s => q.getFlowHeadLoss_HW env s) (p :: ps)| :=
  ⟨rfl, rfl⟩

end HW6
